import Mathlib

/-!
Verification development for the nobuddy-express-metadata-api contract-state
cache.  The repository contains several historical variants of
`ContractService`; each is embedded below as a pure Lean function over an
explicit state record, with the remote contract call supplied as an oracle
argument (`Except` value) and every `Date.now()` sample passed in explicitly.

Variants embedded (names follow the source files):
* `W3`  — `src/ContractService.ts` (web3, keyed by collection name);
* `W4`  — the older web3 variant that throws `ContractNotFoundError`;
* `E5`  — the ethers totalSupply variant keyed by (collection, network);
* `ST`  — the ethers `state` variant keyed by (network, tokenId);
* `EX`  — the ethers `exists` variant keyed by (collection, network, tokenId).
-/

namespace NobuddyMeta

/-- A JavaScript number value as it can flow out of these services:
an integer, `Infinity`, or `undefined` (a missing map entry). -/
inductive JsVal where
  | num (i : Int)
  | inf
  | undef
  deriving DecidableEq, Repr

/-- A JavaScript number that may be `NaN` (the `state` cache stores raw
`parseInt` results without an `isNaN` check, so `NaN` can be stored). -/
inductive JsNumV where
  | int (i : Int)
  | nan
  deriving DecidableEq, Repr

/-- The error taxonomy of the repository (`errors.ts`) plus the two ways a
JS runtime error can surface in this code: a `TypeError` from indexing
`undefined`, and an error thrown by the remote call (carrying its message). -/
inductive JsError where
  | invalidTotalSupplyResponse (msg : String)
  | contractNotFound (msg : String)
  | invalidAuthType (msg : String)
  | typeError
  | remote (msg : String)
  deriving DecidableEq, Repr

/-- Decimal digits of a leading-digit prefix. -/
def leadingDigits (cs : List Char) : List Char :=
  cs.takeWhile fun c => decide ('0' ≤ c) && decide (c ≤ '9')

/-- Value of a (non-empty) digit string, most significant first. -/
def digitsToNat (cs : List Char) : Nat :=
  cs.foldl (fun acc c => acc * 10 + (c.toNat - 48)) 0

/-- Embedding of JavaScript `parseInt` applied to a string, for the decimal
responses this service receives (leading whitespace skipped, optional sign,
longest decimal-digit prefix; `none` models `NaN`). -/
def jsParseInt (s : String) : Option Int :=
  let cs := s.data.dropWhile fun c => c == ' ' || c == '\t' || c == '\n' || c == '\r'
  match cs with
  | '-' :: rest =>
      let d := leadingDigits rest
      if d.isEmpty then none else some (-(digitsToNat d : Int))
  | '+' :: rest =>
      let d := leadingDigits rest
      if d.isEmpty then none else some (digitsToNat d : Int)
  | rest =>
      let d := leadingDigits rest
      if d.isEmpty then none else some (digitsToNat d : Int)

/-- JS truthiness test for an optional stored number: `!map[k]` is `true`
when the entry is missing (`undefined`) or equals `0`. -/
def jsFalsyNum : Option Int → Bool
  | none => true
  | some v => v == 0

/-- Reading a map entry as the JS value it yields (`undefined` when absent). -/
def jsLookup : Option Int → JsVal
  | none => .undef
  | some v => .num v

/-- JS `>` comparison between a service result and a token id
(`Infinity > n` is true; `undefined > n` is `NaN > n`, hence false). -/
def jsGt : JsVal → Int → Bool
  | .num a, b => decide (a > b)
  | .inf, _ => true
  | .undef, _ => false

/-- Pointwise update of a single-key JS record. -/
def upd1 {β : Type} (m : String → Option β) (k : String) (v : β) :
    String → Option β :=
  fun k' => if k' = k then some v else m k'

/-- Does the character list contain `pat` as a contiguous sublist?
Embeds `msg.match(/PixelBlossom:/)` (a regex with no anchors matches
anywhere in the string). -/
def listContainsSub (pat : List Char) : List Char → Bool
  | [] => pat.isEmpty
  | c :: tl => pat.isPrefixOf (c :: tl) || listContainsSub pat tl

/-- Embedding of `e?.message?.match(/PixelBlossom:/)` from the `state`
variant: true iff the message contains the substring `PixelBlossom:`. -/
def matchesIntentional (msg : String) : Bool :=
  listContainsSub "PixelBlossom:".data msg.data

/-! ## W3 — `src/ContractService.ts` (web3 totalSupply, keyed by collection) -/

/-- The two cache maps of the web3 `ContractService`
(`totalSupplyMap` and `_totalSupplyLastQueriedMap`). -/
structure W3State where
  totalSupplyMap : String → Option Int
  lastQueriedMap : String → Option Int

/-- Result of one `getTotalSupply` invocation: the returned-or-thrown value,
the post-call service state, the number of remote contract reads issued, and
the number of `resetConnection` calls performed. -/
structure W3Outcome where
  result : Except JsError JsVal
  state : W3State
  reads : Nat
  resets : Nat

/-- Staleness test `lastQueried[c] + ttl * 1000 <= now`: when the entry is
missing, `undefined + n` is `NaN` and the comparison is false. -/
def w3Stale (last : Option Int) (ttl now : Int) : Bool :=
  match last with
  | none => false
  | some t => decide (t + ttl * 1000 ≤ now)

namespace W3

/-- Embedding of `ContractService.getTotalSupply` from `src/ContractService.ts`.
`hasContract` is the contracts map built by `_initContracts`; `now₁` is the
`Date.now()` sample in the cache condition, `now₂` the sample at the cache
write; `r₁` is the outcome of the first `_getTotalSupplyResponse` call and
`r₂` that of the retry after `resetConnection` (used only when `r₁` throws). -/
def getTotalSupply (hasContract : String → Bool) (ttl : Int) (σ : W3State)
    (c : String) (now₁ now₂ : Int) (r₁ r₂ : Except JsError String) : W3Outcome :=
  if hasContract c = false then
    ⟨.ok .inf, σ, 0, 0⟩
  else if jsFalsyNum (σ.totalSupplyMap c) || w3Stale (σ.lastQueriedMap c) ttl now₁ then
    match (match r₁ with
           | .ok s => (Except.ok s, 1, 0)
           | .error _ => (r₂, 2, 1) : Except JsError String × Nat × Nat) with
    | (.error e, reads, resets) => ⟨.error e, σ, reads, resets⟩
    | (.ok s, reads, resets) =>
      match jsParseInt s with
      | none =>
          ⟨.error (.invalidTotalSupplyResponse
            ("Invalid total supply response for collection " ++ c)), σ, reads, resets⟩
      | some v =>
          let σ' : W3State := ⟨upd1 σ.totalSupplyMap c v, upd1 σ.lastQueriedMap c now₂⟩
          ⟨.ok (jsLookup (σ'.totalSupplyMap c)), σ', reads, resets⟩
  else
    ⟨.ok (jsLookup (σ.totalSupplyMap c)), σ, 0, 0⟩

end W3

/-! ## W4 — older web3 totalSupply variant (throws `ContractNotFoundError`) -/

/-- The value resolved by `_getTotalSupplyResponse` in the W4 variant, as the
validation `!response || typeof response[0] !== 'number'` sees it: either the
string that web3's `.call()` actually returns, or an array of numbers (the
shape the validation was evidently written against). -/
inductive W4Resp where
  | str (s : String)
  | arr (xs : List Int)
  deriving DecidableEq, Repr

/-- JS truthiness of the response: only the empty string is falsy here
(arrays, even empty ones, are truthy). -/
def w4Falsy : W4Resp → Bool
  | .str s => s == ""
  | .arr _ => false

/-- Is `typeof response[0] === 'number'`?  Indexing a JS string yields a
one-character string (or `undefined` when empty), never a number; indexing
an array of numbers yields a number when non-empty. -/
def w4Elem0IsNumber : W4Resp → Bool
  | .str _ => false
  | .arr xs => !xs.isEmpty

/-- The value `response[0]` when it is a number (guarded by `w4Elem0IsNumber`). -/
def w4Elem0 : W4Resp → Int
  | .arr (x :: _) => x
  | .arr [] => 0
  | .str _ => 0

namespace W4

/-- Embedding of the older `ContractService.getTotalSupply` (the variant that
imports `ContractNotFoundError`).  The cache condition is checked first; only
on a stale-or-missing entry is the contract's presence checked.  On a first
failed read it performs `_resetConnection` and retries once. -/
def getTotalSupply (hasContract : String → Bool) (ttl : Int) (σ : W3State)
    (c : String) (now₁ now₂ : Int) (r₁ r₂ : Except JsError W4Resp) : W3Outcome :=
  if jsFalsyNum (σ.totalSupplyMap c) || w3Stale (σ.lastQueriedMap c) ttl now₁ then
    if hasContract c = false then
      ⟨.error (.contractNotFound
        ("Web3 contract for collection " ++ c ++ " is not found")), σ, 0, 0⟩
    else
      match (match r₁ with
             | .ok s => (Except.ok s, 1, 0)
             | .error _ => (r₂, 2, 1) : Except JsError W4Resp × Nat × Nat) with
      | (.error e, reads, resets) => ⟨.error e, σ, reads, resets⟩
      | (.ok resp, reads, resets) =>
        if w4Falsy resp || !w4Elem0IsNumber resp then
          ⟨.error (.invalidTotalSupplyResponse
            ("Invalid total supply response for collection " ++ c)), σ, reads, resets⟩
        else
          let σ' : W3State :=
            ⟨upd1 σ.totalSupplyMap c (w4Elem0 resp), upd1 σ.lastQueriedMap c now₂⟩
          ⟨.ok (jsLookup (σ'.totalSupplyMap c)), σ', reads, resets⟩
  else
    ⟨.ok (jsLookup (σ.totalSupplyMap c)), σ, 0, 0⟩

end W4

/-! ## E5 — ethers totalSupply variant keyed by (collection, network) -/

/-- A two-level JS record `Record<Slug, Record<Network, α>>`: the outer level
distinguishes a missing row (indexing it raises `TypeError`) from a present
row. -/
def JRec2 (α : Type) : Type := String → Option (String → Option α)

/-- Safe nested read, as lodash `get(m, [c, n])` performs it. -/
def get2 {α : Type} (m : JRec2 α) (c n : String) : Option α :=
  match m c with
  | some row => row n
  | none => none

/-- Nested write, as lodash `set(m, [c, n], v)` performs it (creates the
intermediate row when missing). -/
def set2 {α : Type} (m : JRec2 α) (c n : String) (v : α) : JRec2 α :=
  fun c' =>
    if c' = c then
      some (fun n' => if n' = n then some v else get2 m c n')
    else m c'

/-- Direct JS read `m[c][n]`: raises `TypeError` when the outer row is
missing, otherwise yields the (possibly `undefined`) inner entry. -/
def read2 {α : Type} (m : JRec2 α) (c n : String) : Except JsError (Option α) :=
  match m c with
  | some row => .ok (row n)
  | none => .error .typeError

/-- The two cache maps of the ethers totalSupply variant. -/
structure E5State where
  totalSupplyMap : JRec2 Int
  lastQueriedMap : JRec2 Int

/-- Outcome of one E5 `getTotalSupply` invocation. -/
structure E5Outcome where
  result : Except JsError JsVal
  state : E5State
  reads : Nat

namespace E5

/-- The fetch-and-store path of the E5 variant (no try/catch, no retry: a
rejected read propagates).  `r` carries the `BigNumber.toNumber()` result of
the resolved read (`none` models `NaN`). -/
def fetch (σ : E5State) (c n : String) (now₂ : Int)
    (r : Except JsError (Option Int)) : E5Outcome :=
  match r with
  | .error e => ⟨.error e, σ, 1⟩
  | .ok none =>
      ⟨.error (.invalidTotalSupplyResponse
        ("Invalid total supply response for collection " ++ c)), σ, 1⟩
  | .ok (some v) =>
      let σ' : E5State :=
        ⟨set2 σ.totalSupplyMap c n v, set2 σ.lastQueriedMap c n now₂⟩
      ⟨.ok (jsLookup (get2 σ'.totalSupplyMap c n)), σ', 1⟩

/-- Embedding of the ethers `ContractService.getTotalSupply` keyed by
(collection, network).  The guard `!this._contracts[collectionName][networkName]`
raises `TypeError` when the collection row itself is absent.  The cache
condition short-circuits: the staleness disjunct (a direct, unsafe read of
`_totalSupplyLastQueriedMap[c][n]`) is only evaluated when a truthy cached
value exists. -/
def getTotalSupply (contracts : String → Option (String → Bool)) (ttl : Int)
    (σ : E5State) (c n : String) (now₁ now₂ : Int)
    (r : Except JsError (Option Int)) : E5Outcome :=
  match contracts c with
  | none => ⟨.error .typeError, σ, 0⟩
  | some row =>
    if row n = false then ⟨.ok .inf, σ, 0⟩
    else if jsFalsyNum (get2 σ.totalSupplyMap c n) then
      fetch σ c n now₂ r
    else
      match σ.lastQueriedMap c with
      | none => ⟨.error .typeError, σ, 0⟩
      | some lrow =>
        if w3Stale (lrow n) ttl now₁ then
          fetch σ c n now₂ r
        else
          match read2 σ.totalSupplyMap c n with
          | .error e => ⟨.error e, σ, 0⟩
          | .ok ov => ⟨.ok (jsLookup ov), σ, 0⟩

end E5

/-! ## ST — ethers `state` variant keyed by (network, tokenId)

Timestamps in this variant and in EX are in seconds (`Date.now() / 1000`);
they are modelled as integers, which preserves every ordering fact the
claims speak about. -/

/-- One `_stateMap` entry: `{ value, timestamp }`.  The value is the raw
`parseInt` result, so it can be `NaN`. -/
structure StateEntry where
  value : JsNumV
  timestamp : Int
  deriving DecidableEq, Repr

/-- The `_stateMap` of the `state` variant, keyed by network and token id
(lodash `get`/`set` make the nested access safe, so a flat function
suffices). -/
structure STState where
  stateMap : String → Int → Option StateEntry

/-- Outcome of one `state` invocation. -/
structure STOutcome where
  result : Except JsError JsNumV
  state : STState
  reads : Nat

/-- Write of `set(this._stateMap, [networkName, tokenId], entry)`. -/
def updST (m : String → Int → Option StateEntry) (n : String) (t : Int)
    (e : StateEntry) : String → Int → Option StateEntry :=
  fun n' t' => if n' = n ∧ t' = t then some e else m n' t'

/-- The fallback value `savedValue || 0`: `undefined`, `NaN` and `0` are all
falsy and yield `0`; any other saved number is returned as-is. -/
def stFallback : Option StateEntry → JsNumV
  | none => .int 0
  | some en =>
    match en.value with
    | .nan => .int 0
    | .int v => if v == 0 then .int 0 else .int v

namespace ST

/-- The fetch path of the `state` variant, reached when the cache test fails.
When the network has no contract instance, `this._contracts[networkName].state`
raises a `TypeError` inside the `try`, whose message does not contain
`PixelBlossom:`, so it lands in the fallback branch without a remote read.
`r` is the remote outcome: `.ok s` is the resolved value coerced to a string
(as `parseInt` coerces it), `.error msg` a rejection carrying its message. -/
def stateFetch (hasContract : String → Bool) (σ : STState)
    (saved : Option StateEntry) (network : String) (tokenId : Int)
    (now : Int) (r : Except String String) : STOutcome :=
  if hasContract network = false then
    ⟨.ok (stFallback saved), σ, 0⟩
  else
    match r with
    | .error msg =>
      if matchesIntentional msg then ⟨.error (.remote msg), σ, 1⟩
      else ⟨.ok (stFallback saved), σ, 1⟩
    | .ok s =>
      let v : JsNumV := match jsParseInt s with | none => .nan | some i => .int i
      ⟨.ok v, ⟨updST σ.stateMap network tokenId ⟨v, now⟩⟩, 1⟩

set_option linter.unusedVariables false in
/-- Embedding of the ethers `ContractService.state`.  The cache is keyed by
(network, tokenId) only; `collectionIndex` is forwarded solely to the remote
call, whose outcome is the oracle `r`.  A stored entry always passes the
`typeof savedValue === 'number'` test (`NaN` included), so the hit test is
just the timestamp comparison `savedTimestamp > now - ttl`. -/
def state (hasContract : String → Bool) (ttl : Int) (σ : STState)
    (network : String) (collectionIndex : Int) (tokenId : Int)
    (now : Int) (r : Except String String) : STOutcome :=
  match σ.stateMap network tokenId with
  | some en =>
    if decide (en.timestamp > now - ttl) then ⟨.ok en.value, σ, 0⟩
    else stateFetch hasContract σ (some en) network tokenId now r
  | none => stateFetch hasContract σ none network tokenId now r

end ST

/-! ## EX — ethers `exists` variant keyed by (collection, network, tokenId) -/

/-- One `_existsMap` entry. -/
structure ExistsEntry where
  value : Bool
  timestamp : Int
  deriving DecidableEq, Repr

/-- The `_existsMap` of the `exists` variant. -/
structure EXState where
  existsMap : String → String → Int → Option ExistsEntry

/-- Outcome of one `exists` invocation.  The `try` swallows every error
(including the `TypeError` from a missing contract), so the call always
returns a boolean. -/
structure EXOutcome where
  result : Bool
  state : EXState
  reads : Nat

/-- Write of `set(this._existsMap, [collectionName, networkName, tokenId], e)`. -/
def updEX (m : String → String → Int → Option ExistsEntry) (c n : String)
    (t : Int) (e : ExistsEntry) : String → String → Int → Option ExistsEntry :=
  fun c' n' t' => if c' = c ∧ n' = n ∧ t' = t then some e else m c' n' t'

namespace EX

/-- Embedding of the ethers `ContractService.exists`.  `savedValue` defaults
to `false` and `savedTimestamp` to `0` (the lodash `get` defaults), so the
`typeof savedValue === 'boolean'` test always holds and the hit test is
`savedTimestamp > now - ttl`.  On a successful `ownerOf` call the value is
`true`; on any throw the saved value is kept and the written timestamp is
`savedTimestamp || now`.  When the (collection, network) has no contract, the
property access throws before any remote read (`reads = 0`) and is caught. -/
def exists' (hasContract : String → String → Bool) (ttl : Int) (σ : EXState)
    (c n : String) (tokenId : Int) (now : Int) (readOk : Bool) : EXOutcome :=
  let savedValue := match σ.existsMap c n tokenId with | some e => e.value | none => false
  let savedTimestamp := match σ.existsMap c n tokenId with | some e => e.timestamp | none => 0
  if decide (savedTimestamp > now - ttl) then
    ⟨savedValue, σ, 0⟩
  else if hasContract c n && readOk then
    ⟨true, ⟨updEX σ.existsMap c n tokenId ⟨true, now⟩⟩, 1⟩
  else
    let t := if savedTimestamp == 0 then now else savedTimestamp
    ⟨savedValue, ⟨updEX σ.existsMap c n tokenId ⟨savedValue, t⟩⟩,
      if hasContract c n then 1 else 0⟩

end EX

/-! ## Connection construction (`_createProvider` and the constructor) -/

/-- UTF-8 encoding of one character (what `Buffer.from(string)` produces per
code point), as a list of byte values. -/
def utf8Bytes (c : Char) : List Nat :=
  let n := c.toNat
  if n < 0x80 then [n]
  else if n < 0x800 then [0xC0 + n / 64, 0x80 + n % 64]
  else if n < 0x10000 then
    [0xE0 + n / 4096, 0x80 + (n / 64) % 64, 0x80 + n % 64]
  else
    [0xF0 + n / 262144, 0x80 + (n / 4096) % 64, 0x80 + (n / 64) % 64, 0x80 + n % 64]

/-- UTF-8 bytes of a string. -/
def strUtf8 (s : String) : List Nat :=
  (s.data.map utf8Bytes).flatten

/-- The base64 alphabet. -/
def b64Alphabet : List Char :=
  "ABCDEFGHIJKLMNOPQRSTUVWXYZabcdefghijklmnopqrstuvwxyz0123456789+/".data

/-- Character for one 6-bit group. -/
def b64Char (n : Nat) : Char :=
  b64Alphabet.getD n '?'

/-- Standard base64 with `=` padding over a byte list, as
`Buffer.toString('base64')` produces it. -/
def base64Chunks : List Nat → List Char
  | [] => []
  | [a] =>
      [b64Char (a / 4), b64Char (a % 4 * 16), '=', '=']
  | [a, b] =>
      [b64Char (a / 4), b64Char (a % 4 * 16 + b / 16), b64Char (b % 16 * 4), '=']
  | a :: b :: c :: rest =>
      b64Char (a / 4) :: b64Char (a % 4 * 16 + b / 16) ::
        b64Char (b % 16 * 4 + c / 64) :: b64Char (c % 64) :: base64Chunks rest

/-- Base64 encoding of a string's UTF-8 bytes:
`Buffer.from(value).toString('base64')`. -/
def base64encode (s : String) : String :=
  ⟨base64Chunks (strUtf8 s)⟩

/-- Embedding of `ContractService._createProvider`, reduced to the
authorization header it installs on the websocket provider: `Basic` sends the
base64-encoded credential, `Bearer` sends it verbatim, anything else throws
`InvalidAuthTypeError`. -/
def createProviderHeader (authType authValue : String) : Except JsError String :=
  if authType = "Basic" then
    .ok (authType ++ " " ++ base64encode authValue)
  else if authType = "Bearer" then
    .ok (authType ++ " " ++ authValue)
  else
    .error (.invalidAuthType ("Invalid web3 auth type: " ++ authType))

/-- Embedding of `ContractService._initContracts` for the single-key web3
variant: a collection gets a contract iff its database record has a truthy
`contractAddress` (the empty string is falsy). -/
def initContracts (db : List (String × Option String)) : String → Bool :=
  fun c =>
    match db.lookup c with
    | some (some addr) => !(addr == "")
    | _ => false

/-- Result of a completed `ContractService` construction: the authorization
header of the provider it connected with, and the contracts map. -/
structure W3Built where
  header : String
  hasContract : String → Bool

/-- Embedding of the `ContractService` constructor: it calls
`_createProvider` (so an invalid auth type throws here, before any request
is served) and then `_initContracts`. -/
def construct (db : List (String × Option String)) (authType authValue : String) :
    Except JsError W3Built :=
  match createProviderHeader authType authValue with
  | .error e => .error e
  | .ok h => .ok ⟨h, initContracts db⟩

/-! ## Concrete states used by closed statements -/

/-- A `W3State` with empty cache maps. -/
def emptyW3 : W3State := ⟨fun _ => none, fun _ => none⟩

/-- An `E5State` with empty cache maps. -/
def emptyE5 : E5State := ⟨fun _ => none, fun _ => none⟩

/-- An `STState` with an empty state map. -/
def emptyST : STState := ⟨fun _ _ => none⟩

/-- An `EXState` with an empty exists map. -/
def emptyEX : EXState := ⟨fun _ _ _ => none⟩

/-! ## Claims -/

/-- C8: connection construction with auth scheme `Basic` sends the credential
base64-encoded (`Basic <base64(value)>`), with `Bearer` sends it verbatim
(`Bearer <value>`), and with any other scheme throws `InvalidAuthTypeError`
from the constructor, before any request is served. -/
theorem c8_auth_scheme (db : List (String × Option String)) (ty v : String) :
    createProviderHeader "Basic" v = .ok ("Basic" ++ " " ++ base64encode v) ∧
    createProviderHeader "Bearer" v = .ok ("Bearer" ++ " " ++ v) ∧
    (ty ≠ "Basic" → ty ≠ "Bearer" →
      construct db ty v =
        .error (.invalidAuthType ("Invalid web3 auth type: " ++ ty))) := by
  refine ⟨rfl, rfl, fun h1 h2 => ?_⟩
  simp [construct, createProviderHeader, h1, h2]

/-- Witness for C8 at a concrete unrecognized scheme. -/
theorem c8_auth_scheme_witness :
    construct [] "Digest" "secret" =
      .error (.invalidAuthType ("Invalid web3 auth type: " ++ "Digest")) :=
  (c8_auth_scheme [] "Digest" "secret").2.2 (by decide) (by decide)

/-- C3 counterexample: in `src/ContractService.ts`, a collection with no
bound contract makes `getTotalSupply` return the value `Infinity` — a
successful result, not a distinct "not configured" failure. -/
theorem c3_counterexample :
    (W3.getTotalSupply (fun _ => false) 300 emptyW3 "collection0" 0 0
        (.ok "3") (.ok "3")).result = .ok .inf ∧
    ¬ ∃ e, (W3.getTotalSupply (fun _ => false) 300 emptyW3 "collection0" 0 0
        (.ok "3") (.ok "3")).result = .error e := by
  refine ⟨rfl, fun ⟨e, he⟩ => by simp [W3.getTotalSupply, emptyW3] at he⟩

/-- C3 (amended): only the older web3 variant signals the structural
condition — on a stale-or-missing entry for a collection with no contract it
throws `ContractNotFoundError` (distinct from the transient and validation
errors) and caches nothing; the current `src/ContractService.ts` variant
instead returns `Infinity` without a remote read and without caching. -/
theorem c3_not_configured_amended :
    (∀ (hasContract : String → Bool) ttl σ c now₁ now₂ r₁ r₂,
      hasContract c = false →
      (jsFalsyNum (σ.totalSupplyMap c) || w3Stale (σ.lastQueriedMap c) ttl now₁) = true →
      W4.getTotalSupply hasContract ttl σ c now₁ now₂ r₁ r₂ =
        ⟨.error (.contractNotFound
          ("Web3 contract for collection " ++ c ++ " is not found")), σ, 0, 0⟩) ∧
    (∀ (hasContract : String → Bool) ttl σ c now₁ now₂ r₁ r₂,
      hasContract c = false →
      W3.getTotalSupply hasContract ttl σ c now₁ now₂ r₁ r₂ = ⟨.ok .inf, σ, 0, 0⟩) := by
  constructor
  · intro hasContract ttl σ c now₁ now₂ r₁ r₂ hnc hcond
    simp [W4.getTotalSupply, hcond, hnc]
  · intro hasContract ttl σ c now₁ now₂ r₁ r₂ hnc
    simp [W3.getTotalSupply, hnc]

/-- Witness for C3 (amended) at concrete inputs. -/
theorem c3_not_configured_amended_witness :
    W4.getTotalSupply (fun _ => false) 300 emptyW3 "collection0" 0 0
        (.ok (.str "3")) (.ok (.str "3")) =
      ⟨.error (.contractNotFound
        ("Web3 contract for collection " ++ "collection0" ++ " is not found")),
        emptyW3, 0, 0⟩ ∧
    W3.getTotalSupply (fun _ => false) 300 emptyW3 "collection0" 0 0
        (.ok "3") (.ok "3") = ⟨.ok .inf, emptyW3, 0, 0⟩ :=
  ⟨c3_not_configured_amended.1 (fun _ => false) 300 emptyW3 "collection0" 0 0
      (.ok (.str "3")) (.ok (.str "3")) rfl (by decide),
   c3_not_configured_amended.2 (fun _ => false) 300 emptyW3 "collection0" 0 0
      (.ok "3") (.ok "3") rfl⟩

/-- C9 counterexample: in the ethers totalSupply variant keyed by
(collection, network), a collection with no row in the contracts map makes
`getTotalSupply` raise a `TypeError` instead of returning `Infinity`. -/
theorem c9_counterexample :
    (E5.getTotalSupply (fun _ => none) 300 emptyE5 "collection0" "network0"
        0 0 (.ok (some 3))).result = .error .typeError ∧
    (E5.getTotalSupply (fun _ => none) 300 emptyE5 "collection0" "network0"
        0 0 (.ok (some 3))).result ≠ .ok .inf := by
  exact ⟨rfl, by simp [E5.getTotalSupply]⟩

/-- C9 (amended): the single-key web3 variant returns `Infinity` for a
collection with no bound contract, with no remote read and no cache write,
and `Infinity > tokenId` holds for every token id, so such tokens are
treated as minted; in the two-key ethers variant the same holds when the
collection row exists but carries no instance for the requested network,
while a collection with no row at all raises a `TypeError` instead. -/
theorem c9_infinity_amended :
    (∀ (hasContract : String → Bool) ttl σ c now₁ now₂ r₁ r₂,
      hasContract c = false →
      W3.getTotalSupply hasContract ttl σ c now₁ now₂ r₁ r₂ = ⟨.ok .inf, σ, 0, 0⟩) ∧
    (∀ (contracts : String → Option (String → Bool)) row ttl σ c n now₁ now₂ r,
      contracts c = some row → row n = false →
      E5.getTotalSupply contracts ttl σ c n now₁ now₂ r = ⟨.ok .inf, σ, 0⟩) ∧
    (∀ (contracts : String → Option (String → Bool)) ttl σ c n now₁ now₂ r,
      contracts c = none →
      E5.getTotalSupply contracts ttl σ c n now₁ now₂ r = ⟨.error .typeError, σ, 0⟩) ∧
    (∀ tokenId : Int, jsGt .inf tokenId = true) := by
  refine ⟨?_, ?_, ?_, fun _ => rfl⟩
  · intro hasContract ttl σ c now₁ now₂ r₁ r₂ hnc
    simp [W3.getTotalSupply, hnc]
  · intro contracts row ttl σ c n now₁ now₂ r hrow hn
    simp [E5.getTotalSupply, hrow, hn]
  · intro contracts ttl σ c n now₁ now₂ r hrow
    simp [E5.getTotalSupply, hrow]

/-- Witness for C9 (amended) at concrete inputs. -/
theorem c9_infinity_amended_witness :
    W3.getTotalSupply (fun _ => false) 300 emptyW3 "collection0" 0 0
        (.ok "3") (.ok "3") = ⟨.ok .inf, emptyW3, 0, 0⟩ ∧
    E5.getTotalSupply (fun _ => some (fun _ => false)) 300 emptyE5
        "collection0" "network9" 0 0 (.ok (some 3)) = ⟨.ok .inf, emptyE5, 0⟩ ∧
    E5.getTotalSupply (fun _ => none) 300 emptyE5 "collectionX" "network0"
        0 0 (.ok (some 3)) = ⟨.error .typeError, emptyE5, 0⟩ :=
  ⟨c9_infinity_amended.1 (fun _ => false) 300 emptyW3 "collection0" 0 0
      (.ok "3") (.ok "3") rfl,
   c9_infinity_amended.2.1 (fun _ => some (fun _ => false)) (fun _ => false) 300
      emptyE5 "collection0" "network9" 0 0 (.ok (some 3)) rfl rfl,
   c9_infinity_amended.2.2.1 (fun _ => none) 300 emptyE5 "collectionX"
      "network0" 0 0 (.ok (some 3)) rfl⟩

/-- C4: in the connection-based web3 totalSupply cache, when the entry is
stale or missing, the first remote read throws and the second read after one
reconnect succeeds with a parseable value, exactly one reconnect is
performed, exactly one retry read is issued (two reads in total), and the
read value is stored in the cache with its timestamp set to the current time
(`Date.now()` at the write, `now₂`). -/
theorem c4_retry_once (hasContract : String → Bool) (ttl : Int) (σ : W3State)
    (c : String) (now₁ now₂ : Int) (e : JsError) (s : String) (v : Int)
    (hc : hasContract c = true)
    (hcond : (jsFalsyNum (σ.totalSupplyMap c) ||
      w3Stale (σ.lastQueriedMap c) ttl now₁) = true)
    (hparse : jsParseInt s = some v) :
    W3.getTotalSupply hasContract ttl σ c now₁ now₂ (.error e) (.ok s) =
      ⟨.ok (.num v),
        ⟨upd1 σ.totalSupplyMap c v, upd1 σ.lastQueriedMap c now₂⟩, 2, 1⟩ := by
  simp [W3.getTotalSupply, hc, hcond, hparse, jsLookup, upd1]

/-- Witness for C4 at concrete inputs. -/
theorem c4_retry_once_witness :
    W3.getTotalSupply (fun _ => true) 300 emptyW3 "collection0" 0 0
        (.error (.remote "socket hangup")) (.ok "41") =
      ⟨.ok (.num 41),
        ⟨upd1 emptyW3.totalSupplyMap "collection0" 41,
         upd1 emptyW3.lastQueriedMap "collection0" 0⟩, 2, 1⟩ :=
  c4_retry_once (fun _ => true) 300 emptyW3 "collection0" 0 0
    (.remote "socket hangup") "41" 41 rfl (by decide) (by decide)

/-- C5 counterexample: the numeric `state` cache does not validate its
response — a read resolving to an unparseable value stores and returns `NaN`
without raising any error, contradicting the claim's universal "every
numeric cache read". -/
theorem c5_counterexample :
    (ST.state (fun _ => true) 300 emptyST "network0" 1 1 1000
        (.ok "garbage")).result = .ok .nan ∧
    (ST.state (fun _ => true) 300 emptyST "network0" 1 1 1000
        (.ok "garbage")).state.stateMap "network0" 1 = some ⟨.nan, 1000⟩ := by
  exact ⟨rfl, by decide⟩

/-- C5 (amended): in the totalSupply caches, a fresh read whose response
does not parse to a number raises `InvalidTotalSupplyResponse` and leaves
the whole cache state (cached value and last-queried timestamp) exactly as
it was; the `state` cache, by contrast, silently stores and returns the
`NaN` parse result. -/
theorem c5_validation_amended :
    (∀ (hasContract : String → Bool) ttl σ c now₁ now₂ s r₂,
      hasContract c = true →
      (jsFalsyNum (σ.totalSupplyMap c) || w3Stale (σ.lastQueriedMap c) ttl now₁) = true →
      jsParseInt s = none →
      W3.getTotalSupply hasContract ttl σ c now₁ now₂ (.ok s) r₂ =
        ⟨.error (.invalidTotalSupplyResponse
          ("Invalid total supply response for collection " ++ c)), σ, 1, 0⟩) ∧
    (∀ (hasContract : String → Bool) ttl σ c now₁ now₂ resp r₂,
      hasContract c = true →
      (jsFalsyNum (σ.totalSupplyMap c) || w3Stale (σ.lastQueriedMap c) ttl now₁) = true →
      (w4Falsy resp || !w4Elem0IsNumber resp) = true →
      W4.getTotalSupply hasContract ttl σ c now₁ now₂ (.ok resp) r₂ =
        ⟨.error (.invalidTotalSupplyResponse
          ("Invalid total supply response for collection " ++ c)), σ, 1, 0⟩) := by
  constructor
  · intro hasContract ttl σ c now₁ now₂ s r₂ hc hcond hparse
    simp [W3.getTotalSupply, hc, hcond, hparse]
  · intro hasContract ttl σ c now₁ now₂ resp r₂ hc hcond hinvalid
    simp [W4.getTotalSupply, hc, hcond, hinvalid]

/-- Witness for C5 (amended) at concrete inputs. -/
theorem c5_validation_amended_witness :
    W3.getTotalSupply (fun _ => true) 300 emptyW3 "collection0" 0 0
        (.ok "non-number-string") (.ok "3") =
      ⟨.error (.invalidTotalSupplyResponse
        ("Invalid total supply response for collection " ++ "collection0")),
        emptyW3, 1, 0⟩ ∧
    W4.getTotalSupply (fun _ => true) 300 emptyW3 "collection0" 0 0
        (.ok (.str "17")) (.ok (.str "17")) =
      ⟨.error (.invalidTotalSupplyResponse
        ("Invalid total supply response for collection " ++ "collection0")),
        emptyW3, 1, 0⟩ :=
  ⟨c5_validation_amended.1 (fun _ => true) 300 emptyW3 "collection0" 0 0
      "non-number-string" (.ok "3") rfl (by decide) (by decide),
   c5_validation_amended.2 (fun _ => true) 300 emptyW3 "collection0" 0 0
      (.str "17") (.ok (.str "17")) rfl (by decide) (by decide)⟩

/-- C6: in the `state` variant, a remote rejection whose message matches the
intentional-error pattern `PixelBlossom:` is propagated unchanged: exactly
the one read is issued (no retry), nothing is written to the cache, and no
fallback value replaces the error. -/
theorem c6_intentional_error (hasContract : String → Bool) (ttl : Int)
    (σ : STState) (n : String) (ci t now : Int) (msg : String)
    (hstale : ∀ en, σ.stateMap n t = some en → en.timestamp ≤ now - ttl)
    (hc : hasContract n = true)
    (hm : matchesIntentional msg = true) :
    ST.state hasContract ttl σ n ci t now (.error msg) =
      ⟨.error (.remote msg), σ, 1⟩ := by
  cases hsaved : σ.stateMap n t with
  | none => simp [ST.state, hsaved, ST.stateFetch, hc, hm]
  | some en =>
    have hle := hstale en hsaved
    simp [ST.state, hsaved, ST.stateFetch, hc, hm, hle]

/-- Witness for C6 at a concrete intentional rejection. -/
theorem c6_intentional_error_witness :
    ST.state (fun _ => true) 300 emptyST "network0" 1 1 1000
        (.error "PixelBlossom: token not active") =
      ⟨.error (.remote "PixelBlossom: token not active"), emptyST, 1⟩ :=
  c6_intentional_error (fun _ => true) 300 emptyST "network0" 1 1 1000
    "PixelBlossom: token not active" (by simp [emptyST]) rfl (by decide)

/-- C10: the `state` cache is keyed by (network, tokenId) only.  After a
successful fresh read performed with one `collectionIndex`, a second call
within the TTL that differs only in `collectionIndex` returns the cached
value with zero remote reads and an unchanged cache, independently of the
second call's `collectionIndex` and remote oracle. -/
theorem c10_state_key_ignores_collection_index (hasContract : String → Bool)
    (ttl : Int) (σ : STState) (n : String) (ci₁ ci₂ t now₁ now₂ : Int)
    (s : String) (r₂ : Except String String)
    (hmiss : σ.stateMap n t = none)
    (hc : hasContract n = true)
    (hfresh : now₂ - ttl < now₁) :
    ST.state hasContract ttl
        (ST.state hasContract ttl σ n ci₁ t now₁ (.ok s)).state n ci₂ t now₂ r₂ =
      ⟨(ST.state hasContract ttl σ n ci₁ t now₁ (.ok s)).result,
       (ST.state hasContract ttl σ n ci₁ t now₁ (.ok s)).state, 0⟩ := by
  simp [ST.state, hmiss, ST.stateFetch, hc, updST, hfresh]

/-- Witness for C10 at concrete inputs with two different collection
indices. -/
theorem c10_state_key_ignores_collection_index_witness :
    ST.state (fun _ => true) 300
        (ST.state (fun _ => true) 300 emptyST "network0" 1 1 1000 (.ok "3")).state
        "network0" 2 1 1001 (.ok "99") =
      ⟨(ST.state (fun _ => true) 300 emptyST "network0" 1 1 1000 (.ok "3")).result,
       (ST.state (fun _ => true) 300 emptyST "network0" 1 1 1000 (.ok "3")).state, 0⟩ :=
  c10_state_key_ignores_collection_index (fun _ => true) 300 emptyST
    "network0" 1 2 1 1000 1001 "3" (.ok "99") rfl rfl (by decide)

/-- C1 counterexample: in the web3 totalSupply cache, a successfully cached
value of `0` is falsy, so the second call within the TTL issues a remote
read (one read, not zero) and returns whatever that read yields instead of
the first call's value. -/
theorem c1_counterexample :
    (W3.getTotalSupply (fun _ => true) 300 emptyW3 "collection0" 0 0
        (.ok "0") (.ok "0")).result = .ok (.num 0) ∧
    (W3.getTotalSupply (fun _ => true) 300
        (W3.getTotalSupply (fun _ => true) 300 emptyW3 "collection0" 0 0
          (.ok "0") (.ok "0")).state
        "collection0" 1 1 (.ok "7") (.ok "7")).reads = 1 ∧
    (W3.getTotalSupply (fun _ => true) 300
        (W3.getTotalSupply (fun _ => true) 300 emptyW3 "collection0" 0 0
          (.ok "0") (.ok "0")).state
        "collection0" 1 1 (.ok "7") (.ok "7")).result = .ok (.num 7) := by
  exact ⟨rfl, rfl, rfl⟩

/-- C1 (amended): if a read operation is called a second time within
`ttlSeconds` of a successful fresh read, the second call issues zero remote
reads and returns the identical value — for the `state` and `exists` caches
this holds for every cached value, while for the totalSupply caches it holds
only when the cached value is nonzero (a cached `0` is falsy and triggers a
fresh read, as the counterexample shows). -/
theorem c1_ttl_amended :
    (∀ (hasContract : String → Bool) ttl σ c now₁ now₂ now₃ now₄ s v r₁' r₂',
      hasContract c = true →
      σ.totalSupplyMap c = none →
      jsParseInt s = some v → v ≠ 0 →
      now₃ < now₂ + ttl * 1000 →
      W3.getTotalSupply hasContract ttl
          (W3.getTotalSupply hasContract ttl σ c now₁ now₂ (.ok s) (.ok s)).state
          c now₃ now₄ r₁' r₂' =
        ⟨(W3.getTotalSupply hasContract ttl σ c now₁ now₂ (.ok s) (.ok s)).result,
         (W3.getTotalSupply hasContract ttl σ c now₁ now₂ (.ok s) (.ok s)).state,
         0, 0⟩) ∧
    (∀ (hasContract : String → Bool) ttl σ n ci t now₁ now₂ s r₂,
      σ.stateMap n t = none →
      hasContract n = true →
      now₂ - ttl < now₁ →
      ST.state hasContract ttl
          (ST.state hasContract ttl σ n ci t now₁ (.ok s)).state n ci t now₂ r₂ =
        ⟨(ST.state hasContract ttl σ n ci t now₁ (.ok s)).result,
         (ST.state hasContract ttl σ n ci t now₁ (.ok s)).state, 0⟩) ∧
    (∀ (hasContract : String → String → Bool) ttl σ c n tk now₁ now₂ rOk₂,
      σ.existsMap c n tk = none →
      hasContract c n = true →
      ¬ ((0 : Int) > now₁ - ttl) →
      now₂ - ttl < now₁ →
      EX.exists' hasContract ttl
          (EX.exists' hasContract ttl σ c n tk now₁ true).state c n tk now₂ rOk₂ =
        ⟨(EX.exists' hasContract ttl σ c n tk now₁ true).result,
         (EX.exists' hasContract ttl σ c n tk now₁ true).state, 0⟩) := by
  refine ⟨?_, ?_, ?_⟩
  · intro hasContract ttl σ c now₁ now₂ now₃ now₄ s v r₁' r₂'
      hc hmiss hparse hv hfresh
    have hstale : w3Stale (some now₂) ttl now₃ = false := by
      simp [w3Stale]; omega
    simp [W3.getTotalSupply, hc, hmiss, hparse, jsFalsyNum, upd1, hv, hstale,
      jsLookup]
  · intro hasContract ttl σ n ci t now₁ now₂ s r₂ hmiss hc hfresh
    simp [ST.state, hmiss, ST.stateFetch, hc, updST, hfresh]
  · intro hasContract ttl σ c n tk now₁ now₂ rOk₂ hmiss hc hstart hfresh
    simp [EX.exists', hmiss, hc, updEX, hstart, hfresh]

/-- Witness for C1 (amended) at concrete inputs for all three variants. -/
theorem c1_ttl_amended_witness :
    W3.getTotalSupply (fun _ => true) 300
        (W3.getTotalSupply (fun _ => true) 300 emptyW3 "collection0" 0 0
          (.ok "5") (.ok "5")).state
        "collection0" 1 1 (.ok "7") (.ok "7") =
      ⟨(W3.getTotalSupply (fun _ => true) 300 emptyW3 "collection0" 0 0
          (.ok "5") (.ok "5")).result,
       (W3.getTotalSupply (fun _ => true) 300 emptyW3 "collection0" 0 0
          (.ok "5") (.ok "5")).state, 0, 0⟩ ∧
    ST.state (fun _ => true) 300
        (ST.state (fun _ => true) 300 emptyST "network0" 1 1 1000 (.ok "0")).state
        "network0" 1 1 1001 (.ok "99") =
      ⟨(ST.state (fun _ => true) 300 emptyST "network0" 1 1 1000 (.ok "0")).result,
       (ST.state (fun _ => true) 300 emptyST "network0" 1 1 1000 (.ok "0")).state,
       0⟩ ∧
    EX.exists' (fun _ _ => true) 300
        (EX.exists' (fun _ _ => true) 300 emptyEX "collection0" "network0" 1
          1000 true).state
        "collection0" "network0" 1 1001 false =
      ⟨(EX.exists' (fun _ _ => true) 300 emptyEX "collection0" "network0" 1
          1000 true).result,
       (EX.exists' (fun _ _ => true) 300 emptyEX "collection0" "network0" 1
          1000 true).state, 0⟩ :=
  ⟨c1_ttl_amended.1 (fun _ => true) 300 emptyW3 "collection0" 0 0 1 1 "5" 5
      (.ok "7") (.ok "7") rfl rfl (by decide) (by decide) (by decide),
   c1_ttl_amended.2.1 (fun _ => true) 300 emptyST "network0" 1 1 1000 1001
      "0" (.ok "99") rfl rfl (by decide),
   c1_ttl_amended.2.2 (fun _ _ => true) 300 emptyEX "collection0" "network0"
      1 1000 1001 false rfl rfl (by decide) (by decide)⟩

/-- C2 counterexample: in the `exists` cache, when the read fails and no
prior entry exists, the fallback write records `{value: false, timestamp:
now}` — the timestamp IS advanced to the current time — so an immediately
subsequent call is a cache hit (zero remote reads) instead of a fresh remote
read. -/
theorem c2_counterexample :
    (EX.exists' (fun _ _ => true) 300 emptyEX "collection0" "network0" 1
        1000 false).result = false ∧
    (EX.exists' (fun _ _ => true) 300 emptyEX "collection0" "network0" 1
        1000 false).state.existsMap "collection0" "network0" 1 =
      some ⟨false, 1000⟩ ∧
    (EX.exists' (fun _ _ => true) 300
        (EX.exists' (fun _ _ => true) 300 emptyEX "collection0" "network0" 1
          1000 false).state
        "collection0" "network0" 1 1001 true).reads = 0 := by
  exact ⟨rfl, by decide, rfl⟩

/-- C2 (amended): when the read fails non-intentionally, the `state` cache
returns the last cached value (or `0` with none) and writes nothing, so the
next call retries immediately; the `exists` cache returns the last cached
value and preserves its stored timestamp when a prior entry exists, but with
no prior entry it returns `false` and records `{false, now}`, so a call
immediately after is served from the cache for a full TTL window instead of
retrying. -/
theorem c2_fallback_amended :
    (∀ (hasContract : String → Bool) ttl σ n ci tk now msg,
      (∀ en, σ.stateMap n tk = some en → en.timestamp ≤ now - ttl) →
      hasContract n = true →
      matchesIntentional msg = false →
      ST.state hasContract ttl σ n ci tk now (.error msg) =
        ⟨.ok (stFallback (σ.stateMap n tk)), σ, 1⟩) ∧
    (∀ (hasContract : String → String → Bool) ttl σ c n tk now en,
      σ.existsMap c n tk = some en →
      en.timestamp ≤ now - ttl →
      en.timestamp ≠ 0 →
      EX.exists' hasContract ttl σ c n tk now false =
        ⟨en.value, ⟨updEX σ.existsMap c n tk ⟨en.value, en.timestamp⟩⟩,
          if hasContract c n then 1 else 0⟩) ∧
    (∀ (hasContract : String → String → Bool) ttl σ c n tk now,
      σ.existsMap c n tk = none →
      ¬ ((0 : Int) > now - ttl) →
      EX.exists' hasContract ttl σ c n tk now false =
        ⟨false, ⟨updEX σ.existsMap c n tk ⟨false, now⟩⟩,
          if hasContract c n then 1 else 0⟩) := by
  refine ⟨?_, ?_, ?_⟩
  · intro hasContract ttl σ n ci tk now msg hstale hc hm
    cases hsaved : σ.stateMap n tk with
    | none => simp [ST.state, hsaved, ST.stateFetch, hc, hm]
    | some en =>
      have hle := hstale en hsaved
      simp [ST.state, hsaved, ST.stateFetch, hc, hm, hle]
  · intro hasContract ttl σ c n tk now en hsaved hle hnz
    simp [EX.exists', hsaved, hnz]
    omega
  · intro hasContract ttl σ c n tk now hsaved hnow
    simp [EX.exists', hsaved, hnow]

/-- Witness for C2 (amended) at concrete inputs. -/
theorem c2_fallback_amended_witness :
    ST.state (fun _ => true) 300 emptyST "network0" 1 1 1000
        (.error "connection refused") =
      ⟨.ok (stFallback (emptyST.stateMap "network0" 1)), emptyST, 1⟩ ∧
    EX.exists' (fun _ _ => true) 300
        ⟨updEX emptyEX.existsMap "collection0" "network0" 1 ⟨true, 500⟩⟩
        "collection0" "network0" 1 1000 false =
      ⟨true, ⟨updEX (updEX emptyEX.existsMap "collection0" "network0" 1
          ⟨true, 500⟩) "collection0" "network0" 1 ⟨true, 500⟩⟩,
        if (fun _ _ => true : String → String → Bool) "collection0" "network0"
          then 1 else 0⟩ ∧
    EX.exists' (fun _ _ => true) 300 emptyEX "collection0" "network0" 1
        1000 false =
      ⟨false, ⟨updEX emptyEX.existsMap "collection0" "network0" 1
          ⟨false, 1000⟩⟩,
        if (fun _ _ => true : String → String → Bool) "collection0" "network0"
          then 1 else 0⟩ :=
  ⟨c2_fallback_amended.1 (fun _ => true) 300 emptyST "network0" 1 1 1000
      "connection refused" (by simp [emptyST]) rfl (by decide),
   c2_fallback_amended.2.1 (fun _ _ => true) 300
      ⟨updEX emptyEX.existsMap "collection0" "network0" 1 ⟨true, 500⟩⟩
      "collection0" "network0" 1 1000 ⟨true, 500⟩ (by decide) (by decide)
      (by decide),
   c2_fallback_amended.2.2 (fun _ _ => true) 300 emptyEX "collection0"
      "network0" 1 1000 rfl (by decide)⟩

/-- The `upd1` write is visible at its own key. -/
theorem upd1_self {β : Type} (m : String → Option β) (k : String) (v : β) :
    upd1 m k v k = some v := by
  simp [upd1]

/-- The `updST` write is visible at its own key. -/
theorem updST_self (m : String → Int → Option StateEntry) (n : String)
    (t : Int) (e : StateEntry) : updST m n t e n t = some e := by
  simp [updST]

/-- The `updEX` write is visible at its own key. -/
theorem updEX_self (m : String → String → Int → Option ExistsEntry)
    (c n : String) (t : Int) (e : ExistsEntry) : updEX m c n t e c n t = some e := by
  simp [updEX]

/-- C7: for every cached key, the stored timestamp is monotonically
non-decreasing across one invocation (hence across successive writes),
provided the clock samples during the call are at least the stored
timestamp: this holds for the web3 totalSupply cache, the `state` cache and
the `exists` cache, on both successful fresh reads and failure-fallback
writes. -/
theorem c7_timestamp_monotone :
    (∀ (hasContract : String → Bool) ttl σ c now₁ now₂ r₁ r₂ t0,
      σ.lastQueriedMap c = some t0 → t0 ≤ now₂ →
      ∃ t', (W3.getTotalSupply hasContract ttl σ c now₁ now₂
          r₁ r₂).state.lastQueriedMap c = some t' ∧ t0 ≤ t') ∧
    (∀ (hasContract : String → Bool) ttl σ n ci tk now r en,
      σ.stateMap n tk = some en → en.timestamp ≤ now →
      ∃ en', (ST.state hasContract ttl σ n ci tk now r).state.stateMap n tk =
          some en' ∧ en.timestamp ≤ en'.timestamp) ∧
    (∀ (hasContract : String → String → Bool) ttl σ c n tk now rOk en,
      σ.existsMap c n tk = some en → en.timestamp ≤ now →
      ∃ en', (EX.exists' hasContract ttl σ c n tk now
          rOk).state.existsMap c n tk = some en' ∧
        en.timestamp ≤ en'.timestamp) := by
  refine ⟨?_, ?_, ?_⟩
  · intro hasContract ttl σ c now₁ now₂ r₁ r₂ t0 h0 hle
    unfold W3.getTotalSupply
    repeat' split
    all_goals
      first
        | exact ⟨t0, h0, le_refl t0⟩
        | exact ⟨now₂, upd1_self _ _ _, hle⟩
  · intro hasContract ttl σ n ci tk now r en hsaved hle
    simp only [ST.state, ST.stateFetch, hsaved]
    repeat' split
    all_goals
      first
        | exact ⟨en, hsaved, le_refl _⟩
        | exact ⟨_, updST_self _ _ _ _, hle⟩
  · intro hasContract ttl σ c n tk now rOk en hsaved hle
    simp only [EX.exists', hsaved]
    repeat' split
    all_goals
      first
        | exact ⟨en, hsaved, le_refl _⟩
        | exact ⟨_, updEX_self _ _ _ _ _, hle⟩
        | exact ⟨_, updEX_self _ _ _ _ _, le_refl _⟩

/-- Witness for C7 at concrete inputs for all three variants. -/
theorem c7_timestamp_monotone_witness :
    (∃ t', (W3.getTotalSupply (fun _ => true) 300
        ⟨upd1 emptyW3.totalSupplyMap "collection0" 5,
         upd1 emptyW3.lastQueriedMap "collection0" 400⟩
        "collection0" 500000 500000 (.ok "6") (.ok "6")).state.lastQueriedMap
        "collection0" = some t' ∧ (400 : Int) ≤ t') ∧
    (∃ en', (ST.state (fun _ => true) 300
        ⟨updST emptyST.stateMap "network0" 1 ⟨.int 3, 400⟩⟩
        "network0" 1 1 900 (.ok "4")).state.stateMap "network0" 1 =
        some en' ∧ (400 : Int) ≤ en'.timestamp) ∧
    (∃ en', (EX.exists' (fun _ _ => true) 300
        ⟨updEX emptyEX.existsMap "collection0" "network0" 1 ⟨true, 400⟩⟩
        "collection0" "network0" 1 900 false).state.existsMap "collection0"
        "network0" 1 = some en' ∧ (400 : Int) ≤ en'.timestamp) :=
  ⟨c7_timestamp_monotone.1 (fun _ => true) 300
      ⟨upd1 emptyW3.totalSupplyMap "collection0" 5,
       upd1 emptyW3.lastQueriedMap "collection0" 400⟩
      "collection0" 500000 500000 (.ok "6") (.ok "6") 400 (by decide)
      (by decide),
   c7_timestamp_monotone.2.1 (fun _ => true) 300
      ⟨updST emptyST.stateMap "network0" 1 ⟨.int 3, 400⟩⟩ "network0" 1 1 900
      (.ok "4") ⟨.int 3, 400⟩ (by decide) (by decide),
   c7_timestamp_monotone.2.2 (fun _ _ => true) 300
      ⟨updEX emptyEX.existsMap "collection0" "network0" 1 ⟨true, 400⟩⟩
      "collection0" "network0" 1 900 false ⟨true, 400⟩ (by decide)
      (by decide)⟩

end NobuddyMeta

